import Mathlib

/-!
Formal model of the OSIMAP web system upload / validation / pipeline core.

The definitions below are a shallow embedding of the JavaScript source:
* `backend/server.js` — the Excel structural validator (`validateExcelFile`),
  the multer storage configuration, the upload route, the sequential Python
  pipeline (`runSingleScript` / `runPythonScripts`) and the `/status` route;
* the client `AddRecord` component — `validateFile`, `sanitizeFileName` and
  the `onDrop` handler.

Strings are modelled as Lean `String` (a wrapper around `List Char`);
JavaScript string primitives (`substring`, `lastIndexOf`, `replace` with the
concrete regexes appearing in the source, `trim`, `toLowerCase`) are embedded
as executable functions on `List Char`.  All inputs of interest are ASCII, so
ASCII-only case conversion (`Char.toLower`) faithfully models
`String.prototype.toLowerCase`, and character counts model `.length`.
-/

namespace Osimap

/-! ## Basic character classes (JS regex classes used by the source) -/

/-- JS regex word character `\w` = `[A-Za-z0-9_]`. -/
def jsWordChar (c : Char) : Bool :=
  c.isAlpha || c.isDigit || c == '_'

/-- JS regex whitespace `\s` (ASCII subset: space, tab, LF, CR, VT, FF). -/
def isJsSpace (c : Char) : Bool :=
  c == ' ' || c == '\t' || c == '\n' || c == '\r' || c == '\x0b' || c == '\x0c'

/-- Character class `[a-zA-Z0-9._-]` from `sanitizeFileName`. -/
def allowedFileChar (c : Char) : Bool :=
  c.isAlpha || c.isDigit || c == '.' || c == '_' || c == '-'

/-- Characters matched by `/[\x00-\x1F\x7F<>:"|?*]/` in client `validateFile`. -/
def invalidNameChar (c : Char) : Bool :=
  c.toNat ≤ 31 || c.toNat == 127 || c == '<' || c == '>' || c == ':' ||
  c == '"' || c == '|' || c == '?' || c == '*'

/-! ## JS string primitives -/

/-- `true` iff the list starts with `'.'` (JS `startsWith('.')`). -/
def headIsDot (l : List Char) : Bool :=
  match l with
  | c :: _ => c == '.'
  | [] => false

/-- JS `String.prototype.substring(a, b)`: both indices are clamped into
`[0, length]` and swapped when out of order. -/
def jsSubstring (l : List Char) (a b : Int) : List Char :=
  let n : Int := Int.ofNat l.length
  let a2 := min (max a 0) n
  let b2 := min (max b 0) n
  let lo := min a2 b2
  let hi := max a2 b2
  (l.take hi.toNat).drop lo.toNat

/-- JS `s.substring(a)` (single-argument form: up to the end of the string). -/
def jsSubstringFrom (l : List Char) (a : Int) : List Char :=
  jsSubstring l a (Int.ofNat l.length)

def lastIndexOfDotAux : List Char → Nat → Int → Int
  | [], _, acc => acc
  | c :: rest, i, acc => lastIndexOfDotAux rest (i + 1) (if c = '.' then Int.ofNat i else acc)

/-- JS `s.lastIndexOf('.')`: index of the last dot, `-1` when absent. -/
def lastIndexOfDot (l : List Char) : Int :=
  lastIndexOfDotAux l 0 (-1)

/-- `true` iff `p` occurs as a contiguous substring of `l`
(JS `RegExp.test` with a literal pattern). -/
def containsSub (p : List Char) (l : List Char) : Bool :=
  p.isPrefixOf l ||
    match l with
    | [] => false
    | _ :: rest => containsSub p rest

/-- ASCII lowercasing of a string (JS `toLowerCase` on ASCII input). -/
def lowerStr (s : String) : String :=
  String.mk (s.data.map Char.toLower)

/-- JS `trim()`: strip whitespace from both ends. -/
def trimChars (l : List Char) : List Char :=
  ((l.dropWhile isJsSpace).reverse.dropWhile isJsSpace).reverse

def collapseWsAux : Bool → List Char → List Char
  | _, [] => []
  | prevSpace, c :: rest =>
    if isJsSpace c then
      (if prevSpace then [] else ['_']) ++ collapseWsAux true rest
    else
      c :: collapseWsAux false rest

/-- JS `replace(/\s+/g, '_')`: each maximal whitespace run becomes one `'_'`. -/
def collapseWs (l : List Char) : List Char :=
  collapseWsAux false l

/-! ## `sanitizeFileName` (client `AddRecord` component)

```js
fileName = fileName.replace(/\.\./g, '');
fileName = fileName.replace(/[^a-zA-Z0-9._-]/g, '_');
if (fileName.startsWith('.')) fileName = 'file_' + fileName;
if (fileName.length > 200) {
  const ext = fileName.substring(fileName.lastIndexOf('.'));
  fileName = fileName.substring(0, 200 - ext.length) + ext;
}
```
-/

/-- JS `replace(/\.\./g, '')`: left-to-right non-overlapping removal of `".."`. -/
def removeDotDot : List Char → List Char
  | [] => []
  | [c] => [c]
  | c1 :: c2 :: rest =>
    if c1 = '.' ∧ c2 = '.' then removeDotDot rest
    else c1 :: removeDotDot (c2 :: rest)

/-- JS `replace(/[^a-zA-Z0-9._-]/g, '_')`. -/
def replaceDisallowed (l : List Char) : List Char :=
  l.map (fun c => if allowedFileChar c then c else '_')

/-- Chars of the "file_" guard prepended to hidden file names. -/
def hiddenGuardChars : List Char := 'f' :: 'i' :: 'l' :: 'e' :: '_' :: []

/-- Step 3 of the sanitizer: prepend "file_" when the name starts with a dot. -/
def dotGuard (l : List Char) : List Char :=
  if headIsDot l then hiddenGuardChars ++ l else l

/-- Step 4 of the sanitizer: truncate names longer than 200 characters,
preserving the extension (JS `substring` semantics, including the negative /
missing-dot corner cases). -/
def truncateLong (l : List Char) : List Char :=
  if 200 < l.length then
    let ext := jsSubstringFrom l (lastIndexOfDot l)
    jsSubstring l 0 (200 - Int.ofNat ext.length) ++ ext
  else l

/-- Steps 1–3 of the sanitizer (everything before the length truncation). -/
def steps123 (l : List Char) : List Char :=
  dotGuard (replaceDisallowed (removeDotDot l))

/-- The `sanitizeFileName` function of the client. -/
def sanitizeFileName (s : String) : String :=
  String.mk (truncateLong (steps123 s.data))

/-- `true` iff the string (as chars) contains the substring `".."`. -/
def containsDotDot : List Char → Bool
  | [] => false
  | c :: rest => (c == '.' && headIsDot rest) || containsDotDot rest

/-! ## Sheet-name year check (`validateExcelFile`, server)

The source tests `/\b(19|20)\d{2}\b/` against the sheet name.  `\b` is a word
boundary: it requires a transition between `\w = [A-Za-z0-9_]` and non-word
(or string edge). -/

/-- One candidate match of `\b(19|20)\d{2}\b` starting at the current
position, given the previous character (`none` at the start of the string). -/
def yearScan (prev : Option Char) : List Char → Bool
  | d1 :: d2 :: d3 :: d4 :: rest =>
    (boundaryBefore prev &&
      ((d1 == '1' && d2 == '9') || (d1 == '2' && d2 == '0')) &&
      d3.isDigit && d4.isDigit && boundaryAfter rest)
    || yearScan (some d1) (d2 :: d3 :: d4 :: rest)
  | c :: rest => yearScan (some c) rest
  | [] => false
where
  boundaryBefore : Option Char → Bool
    | none => true
    | some c => !jsWordChar c
  boundaryAfter : List Char → Bool
    | [] => true
    | c :: _ => !jsWordChar c

/-- JS `sheetName.match(/\b(19|20)\d{2}\b/) !== null`. -/
def matchesYearRegex (s : String) : Bool :=
  yearScan none s.data

/-- Modelled from the spec: "Sheet name must contain a 4-digit substring
matching years 1900–2099".  This is the spec-side predicate, used only to
compare the regex of the source against the specified behaviour. -/
def specHasYearSubstring : List Char → Bool
  | d1 :: d2 :: d3 :: d4 :: rest =>
    (d1.isDigit && d2.isDigit && d3.isDigit && d4.isDigit &&
      decide (1900 ≤ fourDigitVal d1 d2 d3 d4) &&
      decide (fourDigitVal d1 d2 d3 d4 ≤ 2099))
    || specHasYearSubstring (d2 :: d3 :: d4 :: rest)
  | _ => false
where
  fourDigitVal (d1 d2 d3 d4 : Char) : Nat :=
    (d1.toNat - 48) * 1000 + (d2.toNat - 48) * 100 + (d3.toNat - 48) * 10 + (d4.toNat - 48)

/-! ## Required-column check (`validateExcelFile`, server) -/

def REQUIRED_COLUMNS : List String :=
  ["barangay", "lat", "lng", "datecommitted", "timecommitted", "offensetype"]

def SEVERITY_CALC_COLUMNS : List String :=
  ["victimcount", "suspectcount", "victiminjured", "victimkilled", "victimunharmed", "suspectkilled"]

def ALL_REQUIRED_COLUMNS : List String :=
  REQUIRED_COLUMNS ++ SEVERITY_CALC_COLUMNS

/-- Header normalization:
`String(h).trim().toLowerCase().replace(/\s+/g, '_').replace(/[^\w]/g, '')`. -/
def normalizeHeader (h : String) : String :=
  String.mk ((collapseWs ((trimChars h.data).map Char.toLower)).filter jsWordChar)

/-- `col.replace(/_/g, '').toLowerCase()`. -/
def columnNoUnderscore (col : String) : String :=
  String.mk ((col.data.filter (fun c => !(c == '_'))).map Char.toLower)

/-- `col.toLowerCase()`. -/
def columnLower (col : String) : String :=
  String.mk (col.data.map Char.toLower)

/-- The `found` test of `validateExcelFile`: some normalized header equals the
column name with underscores removed, or the column name lowercased. -/
def columnFound (normHeaders : List String) (col : String) : Bool :=
  normHeaders.any (fun h0 =>
    let nh := lowerStr h0
    nh == columnNoUnderscore col || nh == columnLower col)

/-- `missingColumns` computed from the raw header row. -/
def missingColumns (headers : List String) : List String :=
  ALL_REQUIRED_COLUMNS.filter (fun col => !(columnFound (headers.map normalizeHeader) col))

/-! ## Validator messages (exact strings from `server.js`) -/

def noSheetsMsg : String :=
  "❌ Excel file contains no sheets - please add at least one sheet with data"

def yearMsg (sheetName : String) : String :=
  "❌ Sheet name \"" ++ sheetName ++
  "\" must include a 4-digit year (e.g., \"2023\", \"Accidents_2024\", or \"Data_2025\")"

def emptySheetMsg (sheetName : String) : String :=
  "❌ Sheet \"" ++ sheetName ++ "\" is completely empty - please add data to this sheet"

def basicColsMsg (sheetName : String) (cols : List String) : String :=
  "❌ Sheet \"" ++ sheetName ++ "\" is missing basic columns: " ++ String.intercalate ", " cols

def severityColsMsg (sheetName : String) (cols : List String) : String :=
  "❌ Sheet \"" ++ sheetName ++ "\" is missing severity columns: " ++ String.intercalate ", " cols

def headerOnlyMsg (sheetName : String) : String :=
  "❌ Sheet \"" ++ sheetName ++ "\" only has column headers but no data rows"

/-- Messages of the `catch` branch of `validateExcelFile` (unopenable workbook). -/
def corruptFileMsg : String :=
  "❌ This file appears to be corrupted or is not a valid Excel file (.xlsx or .xls)"

def missingFileMsg : String :=
  "❌ File could not be found - please try uploading again"

def unreadableFileMsg : String :=
  "❌ Unable to read Excel file - it may be corrupted, password-protected, or have an invalid format"

/-! ## `validateExcelFile` (server) -/

structure ValidationResult where
  valid : Bool
  errors : List String
deriving DecidableEq

/-- Column errors of one sheet (the `missingColumns` block of the source). -/
def sheetColumnErrors (sheetName : String) (headers : List String) : List String :=
  let mc := missingColumns headers
  let mb := mc.filter (fun c => REQUIRED_COLUMNS.contains c)
  let ms := mc.filter (fun c => SEVERITY_CALC_COLUMNS.contains c)
  (if mb.isEmpty then [] else [basicColsMsg sheetName mb]) ++
  (if ms.isEmpty then [] else [severityColsMsg sheetName ms])

/-- All errors pushed for one sheet, in source push order: year check, then the
empty-sheet early return, then column check, then the headers-only check.
A sheet is a name together with its rows (`sheet_to_json` with `header: 1`);
cells are modelled as strings (the source applies `String(h)` to each). -/
def sheetErrors (sheetName : String) (rows : List (List String)) : List String :=
  (if matchesYearRegex sheetName then [] else [yearMsg sheetName]) ++
  (if rows.length = 0 then [emptySheetMsg sheetName]
   else
     sheetColumnErrors sheetName (rows.headD []) ++
     (if rows.length < 2 then [headerOnlyMsg sheetName] else []))

/-- The server function `validateExcelFile`, applied to an already-opened workbook
(a list of named sheets).  The unopenable-workbook `catch` branch is outside
this pure model; its messages are the `...FileMsg` constants above. -/
def validateExcelFile (wb : List (String × List (List String))) : ValidationResult :=
  if wb.length = 0 then { valid := false, errors := [noSheetsMsg] }
  else
    let errs := wb.flatMap (fun s => sheetErrors s.1 s.2)
    { valid := errs.isEmpty, errors := errs }

/-! ## Upload route (`app.post("/upload")`, server) -/

inductive JsonVal where
  | str : String → JsonVal
  | boolVal : Bool → JsonVal
  | strArr : List String → JsonVal
deriving DecidableEq

/-- Body of `res.status(400).json(...)` when `req.file` is absent. -/
def noFileBody : List (String × JsonVal) :=
  [("message", JsonVal.str "No file uploaded"),
   ("error", JsonVal.str "No file received")]

/-- Body of the 400 response when structural validation fails. -/
def validationFailedBody (errs : List String) : List (String × JsonVal) :=
  [("message", JsonVal.str "Excel file validation failed"),
   ("error", JsonVal.str "File does not meet requirements"),
   ("validationErrors", JsonVal.strArr errs)]

/-- Body of the success response `res.json({ message, filename })`. -/
def successBody (filename : String) : List (String × JsonVal) :=
  [("message", JsonVal.str "File validated successfully. Processing started..."),
   ("filename", JsonVal.str filename)]

/-- Observable actions of the upload route handler, in execution order. -/
inductive UploadEvent where
  | deleteStagedFile : String → UploadEvent
  | respond : Nat → List (String × JsonVal) → UploadEvent
  | startPipeline : UploadEvent
deriving DecidableEq

/-- The upload route handler.  `reqFile` is `req.file` (absent, or the stored
filename together with the workbook the staged file parses to).  The returned
list records the observable actions of the handler in order: on success the
response is sent first and `runPythonScripts()` is invoked afterwards. -/
def uploadHandler (reqFile : Option (String × List (String × List (List String)))) :
    List UploadEvent :=
  match reqFile with
  | none => [UploadEvent.respond 400 noFileBody]
  | some (filename, wb) =>
    let v := validateExcelFile wb
    if v.valid then
      [UploadEvent.respond 200 (successBody filename), UploadEvent.startPipeline]
    else
      [UploadEvent.deleteStagedFile filename,
       UploadEvent.respond 400 (validationFailedBody v.errors)]

/-- The multer `storage.filename` callback: `cb(null, file.originalname)` —
the server stores the file under exactly the name the client submitted. -/
def serverStoredName (originalname : String) : String :=
  originalname

/-! ## Client-side `validateFile` and `onDrop` (`AddRecord` component) -/

structure FileDesc where
  name : String
  size : Nat
  mimeType : String
deriving DecidableEq

def MAX_FILE_SIZE : Nat := 50 * 1024 * 1024

def MIN_FILE_SIZE : Nat := 1024

def ALLOWED_EXTENSIONS : List String := [".xlsx", ".xls"]

def validMimeTypes : List String :=
  ["application/vnd.openxmlformats-officedocument.spreadsheetml.sheet",
   "application/vnd.ms-excel"]

def scriptInjectionNeedles : List String :=
  ["<script", "javascript:", "onerror=", "onload="]

/-- `/<script|javascript:|onerror=|onload=/i.test(fileName)`. -/
def hasScriptInjection (nm : String) : Bool :=
  scriptInjectionNeedles.any (fun p => containsSub p.data (lowerStr nm).data)

/-- `fileName.substring(fileName.lastIndexOf('.')).toLowerCase()`. -/
def fileExtensionOf (nm : String) : String :=
  lowerStr (String.mk (jsSubstringFrom nm.data (lastIndexOfDot nm.data)))

/-- `${(size / (1024*1024)).toFixed(2)}` is a float rendering; the message text
around it is fixed, so the rendering function is a parameter of the model. -/
def tooLargeMsg (renderMB : Nat → String) (size : Nat) : String :=
  "❌ File is too large (" ++ renderMB size ++ "MB) - maximum size is 50MB"

def tooSmallMsg (size : Nat) : String :=
  "❌ File is too small (" ++ Nat.repr size ++ " bytes) - it may be empty or corrupted"

def invalidCharsMsg : String :=
  "❌ File name contains invalid characters - please use only letters, numbers, dashes, and underscores"

def nameTooLongMsg : String :=
  "❌ File name is too long - please shorten it to 255 characters or less"

def maliciousNameMsg : String :=
  "❌ File name contains potentially malicious content"

def invalidTypeMsg (ext : String) : String :=
  "❌ Invalid file type \"" ++ ext ++ "\" - only .xlsx and .xls files are allowed"

def multipleExtensionsMsg : String :=
  "❌ File has multiple extensions - please use a single extension (.xlsx or .xls)"

def hiddenFileMsg : String :=
  "❌ Hidden files (starting with \".\") are not allowed"

def mimeMismatchMsg : String :=
  "❌ File type doesn\x27t match Excel format - make sure it\x27s a genuine .xlsx or .xls file"

/-- The client function `validateFile`, in source check order. -/
def validateFile (renderMB : Nat → String) (f : FileDesc) : List String :=
  (if MAX_FILE_SIZE < f.size then [tooLargeMsg renderMB f.size] else []) ++
  (if f.size < MIN_FILE_SIZE then [tooSmallMsg f.size] else []) ++
  (if f.name.data.any invalidNameChar then [invalidCharsMsg] else []) ++
  (if 255 < f.name.length then [nameTooLongMsg] else []) ++
  (if hasScriptInjection f.name then [maliciousNameMsg] else []) ++
  (if !(ALLOWED_EXTENSIONS.contains (fileExtensionOf f.name)) then
     [invalidTypeMsg (fileExtensionOf f.name)] else []) ++
  (if 1 < f.name.data.count '.' then [multipleExtensionsMsg] else []) ++
  (if headIsDot f.name.data then [hiddenFileMsg] else []) ++
  (if !(validMimeTypes.contains f.mimeType) && !(f.mimeType == "") then
     [mimeMismatchMsg] else [])

/-- Outcome of the `onDrop` handler for a single accepted file: either the
upload is aborted with the validation error list, or a `fetch` to the server
is issued carrying the (sanitized-name) file. -/
inductive UploadDecision where
  | abort : List String → UploadDecision
  | send : String → String → UploadDecision
deriving DecidableEq

/-- The accepted-file branch of `onDrop`: validate, abort on any error,
otherwise upload under the sanitized name.  `send original uploaded` records
the original client-side name and the name the file is submitted under. -/
def onDropAccepted (renderMB : Nat → String) (f : FileDesc) : UploadDecision :=
  let errs := validateFile renderMB f
  if errs = [] then UploadDecision.send f.name (sanitizeFileName f.name)
  else UploadDecision.abort errs

/-- Predicate picking out the two size-error messages of `validateFile`
(each begins with a fixed text no other message starts with). -/
def isSizeError (s : String) : Bool :=
  "❌ File is too large".data.isPrefixOf s.data ||
  "❌ File is too small".data.isPrefixOf s.data

/-! ## Pipeline orchestrator (`runSingleScript` / `runPythonScripts`, server) -/

/-- The global mutable pipeline state of `server.js`
(`isProcessing`, `processingStartTime`, `processingError`). -/
structure PipelineState where
  isProcessing : Bool
  processingStartTime : Option Nat
  processingError : Option String
deriving DecidableEq

/-- Completion signal of one spawned stage: `Except.ok code` models the
`close` event with an exit code, `Except.error msg` models the `error` event
(the process failed to start, with `error.message = msg`). -/
abbrev StageOutcome := Except String Nat

/-- `` `Script ${path.basename(scriptPath)} failed with exit code ${code}` ``. -/
def scriptFailMsg (scriptName : String) (code : Nat) : String :=
  "Script " ++ scriptName ++ " failed with exit code " ++ Nat.repr code

/-- `` `Failed to start ${path.basename(scriptPath)}: ${error.message}` ``. -/
def startFailMsg (scriptName : String) (emsg : String) : String :=
  "Failed to start " ++ scriptName ++ ": " ++ emsg

/-- The error message `runSingleScript` records for a non-success outcome. -/
def failMsgFor (scriptName : String) : StageOutcome → String
  | Except.ok code => scriptFailMsg scriptName code
  | Except.error emsg => startFailMsg scriptName emsg

/-- `runSingleScript`: on exit code 0 run the continuation, otherwise (or on a
start failure) clear `isProcessing` and record the error. -/
def runSingleScriptStep (scriptName : String) (o : StageOutcome)
    (next : PipelineState → PipelineState) (st : PipelineState) : PipelineState :=
  match o with
  | Except.ok code =>
    if code = 0 then next st
    else
      { isProcessing := false
        processingStartTime := st.processingStartTime
        processingError := some (scriptFailMsg scriptName code) }
  | Except.error emsg =>
    { isProcessing := false
      processingStartTime := st.processingStartTime
      processingError := some (startFailMsg scriptName emsg) }

/-- The callback chain of `runPythonScripts`, generalized to any script list:
the success continuation of each script runs the rest of the chain, and the
innermost continuation clears `isProcessing`.  When outcomes run out the
state is left as is (the spawned process has not signalled yet). -/
def runScriptsChain : List String → List StageOutcome → PipelineState → PipelineState
  | [], _, st => { st with isProcessing := false }
  | _ :: _, [], st => st
  | s :: ss, o :: os, st => runSingleScriptStep s o (fun st2 => runScriptsChain ss os st2) st

/-- The five scripts of `runPythonScripts`, in invocation order
(`script1`, `cleanupScript`, `script2`, `script3`, `uploadScript`). -/
def pythonScripts : List String :=
  ["cleaning2.py", "cleanup_files.py", "export_geojson.py",
   "cluster_hdbscan.py", "mobile_cluster_fetch.py"]

/-- `runPythonScripts()` given the completion outcomes of the spawned scripts:
set `isProcessing`, record the start time, clear the error, run the chain. -/
def runPythonScripts (startTime : Nat) (outcomes : List StageOutcome) : PipelineState :=
  runScriptsChain pythonScripts outcomes
    { isProcessing := true, processingStartTime := some startTime, processingError := none }

/-- The scripts actually spawned for the given outcomes: the first script is
always spawned, and each next script is spawned only after an exit code 0. -/
def invokedScripts : List String → List StageOutcome → List String
  | [], _ => []
  | s :: _, [] => [s]
  | s :: ss, o :: os =>
    s :: (match o with
          | Except.ok code => if code = 0 then invokedScripts ss os else []
          | Except.error _ => [])

/-! ## Status route (`app.get("/status")`, server) -/

structure StatusResponse where
  isProcessing : Bool
  processingTime : Nat
  processingStartTime : Option Nat
  processingError : Option String
  status : String
deriving DecidableEq

/-- `isProcessing ? "processing" : processingError ? "error" : "idle"`. -/
def statusOf (st : PipelineState) : String :=
  if st.isProcessing then "processing"
  else
    match st.processingError with
    | some _ => "error"
    | none => "idle"

/-- The `/status` response, at millisecond time `now`. -/
def statusResponse (now : Nat) (st : PipelineState) : StatusResponse :=
  { isProcessing := st.isProcessing
    processingTime := match st.processingStartTime with
                      | some t => (now - t) / 1000
                      | none => 0
    processingStartTime := st.processingStartTime
    processingError := st.processingError
    status := statusOf st }

/-! ## The transition system of the orchestrator (for the state invariant) -/

/-- The idle configuration the process starts in. -/
def initialPipelineState : PipelineState :=
  { isProcessing := false, processingStartTime := none, processingError := none }

/-- The writes `server.js` performs on the global pipeline state:
`runPythonScripts` entry (run start), a stage exiting 0 (no state write),
a stage failing (the failure branches of `runSingleScript`), and the innermost
success continuation (final completion). -/
inductive PipelineStep : PipelineState → PipelineState → Prop where
  | runStart (st : PipelineState) (t : Nat) :
      PipelineStep st
        { isProcessing := true, processingStartTime := some t, processingError := none }
  | stageSuccess (st : PipelineState) : PipelineStep st st
  | stageFailure (st : PipelineState) (msg : String) :
      PipelineStep st
        { isProcessing := false
          processingStartTime := st.processingStartTime
          processingError := some msg }
  | finalComplete (st : PipelineState) : PipelineStep st { st with isProcessing := false }

/-- States reachable from the initial idle state via the orchestrator writes. -/
def ReachablePipelineState (st : PipelineState) : Prop :=
  Relation.ReflTransGen PipelineStep initialPipelineState st

/-! ## Concrete data used by the claim theorems -/

/-- A header row holding all 12 required columns. -/
def allColumnsHeader : List String :=
  ["barangay", "lat", "lng", "datecommitted", "timecommitted", "offensetype",
   "victimcount", "suspectcount", "victiminjured", "victimkilled",
   "victimunharmed", "suspectkilled"]

/-- A header row holding the 11 required columns other than `victimkilled`. -/
def headersNoVictimKilled : List String :=
  ["barangay", "lat", "lng", "datecommitted", "timecommitted", "offensetype",
   "victimcount", "suspectcount", "victiminjured", "victimunharmed", "suspectkilled"]

/-- A structurally valid sheet body: full header row plus one data row. -/
def sampleRows : List (List String) :=
  [allColumnsHeader, ["x"]]

/-- A structurally valid workbook: one sheet named `2023`. -/
def sampleWorkbook : List (String × List (List String)) :=
  [("2023", sampleRows)]

/-- A file name that sanitizes to a 200-character name ending in `"..txt"`:
195 times `a`, a dot, 50 times `b`, then `".txt"` (250 characters in all). -/
def longDotName : String :=
  String.mk (List.replicate 195 'a' ++ '.' :: (List.replicate 50 'b' ++ '.' :: 't' :: 'x' :: 't' :: []))

/-- `longDotName` with a leading `".."` (so the input contains `".."`). -/
def longDotDotName : String :=
  ".." ++ longDotName

/-- A state produced by a run start followed by a stage failure. -/
def errorWitnessState : PipelineState :=
  { isProcessing := false, processingStartTime := some 0, processingError := some "boom" }

/-! ## General lemmas about the embedded string primitives -/

theorem strData_append (s t : String) : (s ++ t).data = s.data ++ t.data := rfl

theorem isPrefixOfAppend :
    ∀ p q r : List Char, p.isPrefixOf q = true → p.isPrefixOf (q ++ r) = true
  | [], q, r, _ => by simp [List.isPrefixOf]
  | _ :: _, [], _, h => by simp [List.isPrefixOf] at h
  | a :: as, b :: bs, r, h => by
    simp only [List.isPrefixOf, Bool.and_eq_true] at h
    simp only [List.cons_append, List.isPrefixOf, Bool.and_eq_true]
    exact ⟨h.1, isPrefixOfAppend as bs r h.2⟩

theorem isPrefixOfFalseAppend :
    ∀ p q r : List Char, p.length ≤ q.length → p.isPrefixOf q = false →
      p.isPrefixOf (q ++ r) = false
  | [], _, _, _, h => by simp [List.isPrefixOf] at h
  | _ :: _, [], _, hl, _ => by simp at hl
  | a :: as, b :: bs, r, hl, h => by
    simp only [List.isPrefixOf, Bool.and_eq_false_iff] at h
    simp only [List.cons_append, List.isPrefixOf, Bool.and_eq_false_iff]
    rcases h with h | h
    · exact Or.inl h
    · exact Or.inr (isPrefixOfFalseAppend as bs r (Nat.le_of_succ_le_succ hl) h)

/-! ## Lemmas about `sanitizeFileName` -/

theorem containsDotDot_cons (c : Char) (l : List Char) :
    containsDotDot (c :: l) = ((c == '.' && headIsDot l) || containsDotDot l) := rfl

theorem containsDotDot_cons_ne (c : Char) (l : List Char) (hc : c ≠ '.') :
    containsDotDot (c :: l) = containsDotDot l := by
  rw [containsDotDot_cons]
  have e : (c == '.') = false := by simp [beq_iff_eq, hc]
  rw [e, Bool.false_and, Bool.false_or]

theorem headIsDot_removeDotDot (c : Char) (l : List Char) (hc : c ≠ '.') :
    headIsDot (removeDotDot (c :: l)) = false := by
  cases l with
  | nil => simp [removeDotDot, headIsDot, beq_iff_eq, hc]
  | cons c2 rest =>
    rw [removeDotDot, if_neg (fun h => hc h.1)]
    simp [headIsDot, beq_iff_eq, hc]

theorem removeDotDot_no_dotdot : ∀ l : List Char, containsDotDot (removeDotDot l) = false
  | [] => rfl
  | [c] => by simp [removeDotDot, containsDotDot, headIsDot]
  | c1 :: c2 :: rest => by
    by_cases h : c1 = '.' ∧ c2 = '.'
    · rw [removeDotDot, if_pos h]
      exact removeDotDot_no_dotdot rest
    · rw [removeDotDot, if_neg h, containsDotDot_cons,
        removeDotDot_no_dotdot (c2 :: rest), Bool.or_false]
      by_cases h1 : c1 = '.'
      · have h2 : c2 ≠ '.' := fun h2 => h ⟨h1, h2⟩
        rw [headIsDot_removeDotDot c2 rest h2, Bool.and_false]
      · have e : (c1 == '.') = false := by simp [beq_iff_eq, h1]
        rw [e, Bool.false_and]

theorem removeDotDot_of_no_dotdot :
    ∀ l : List Char, containsDotDot l = false → removeDotDot l = l
  | [], _ => rfl
  | [_], _ => rfl
  | c1 :: c2 :: rest, h => by
    rw [containsDotDot_cons, Bool.or_eq_false_iff] at h
    rw [removeDotDot, if_neg, removeDotDot_of_no_dotdot (c2 :: rest) h.2]
    rintro ⟨e1, e2⟩
    have h1 := h.1
    rw [e1, show headIsDot (c2 :: rest) = (c2 == '.') from rfl, e2] at h1
    simp at h1

theorem replChar_dot (c : Char) :
    ((if allowedFileChar c then c else '_') == '.') = (c == '.') := by
  by_cases h : allowedFileChar c
  · rw [if_pos h]
  · rw [if_neg h]
    have hc : c ≠ '.' := fun e => h (by rw [e]; decide)
    simp [beq_iff_eq, hc]

theorem headIsDot_replaceDisallowed (l : List Char) :
    headIsDot (replaceDisallowed l) = headIsDot l := by
  cases l with
  | nil => rfl
  | cons c rest => exact replChar_dot c

theorem no_dotdot_replaceDisallowed :
    ∀ l : List Char, containsDotDot l = false → containsDotDot (replaceDisallowed l) = false
  | [], _ => rfl
  | c :: rest, h => by
    rw [containsDotDot_cons, Bool.or_eq_false_iff] at h
    show containsDotDot ((if allowedFileChar c then c else '_') :: replaceDisallowed rest) = false
    rw [containsDotDot_cons, replChar_dot, headIsDot_replaceDisallowed,
      no_dotdot_replaceDisallowed rest h.2, h.1, Bool.or_false]

theorem no_dotdot_dotGuard (l : List Char) (h : containsDotDot l = false) :
    containsDotDot (dotGuard l) = false := by
  unfold dotGuard
  by_cases hd : headIsDot l
  · rw [if_pos hd]
    rw [show hiddenGuardChars ++ l = 'f' :: 'i' :: 'l' :: 'e' :: '_' :: l from rfl]
    rw [containsDotDot_cons_ne 'f' _ (by decide), containsDotDot_cons_ne 'i' _ (by decide),
      containsDotDot_cons_ne 'l' _ (by decide), containsDotDot_cons_ne 'e' _ (by decide),
      containsDotDot_cons_ne '_' _ (by decide)]
    exact h
  · rw [if_neg hd]; exact h

theorem no_dotdot_steps123 (l : List Char) : containsDotDot (steps123 l) = false :=
  no_dotdot_dotGuard _ (no_dotdot_replaceDisallowed _ (removeDotDot_no_dotdot l))

theorem allowed_replaceDisallowed (l : List Char) :
    ∀ c ∈ replaceDisallowed l, allowedFileChar c = true := by
  intro c hc
  rcases List.mem_map.mp hc with ⟨c0, _, rfl⟩
  by_cases h : allowedFileChar c0
  · rw [if_pos h]; exact h
  · rw [if_neg h]; decide

theorem replaceDisallowed_of_allowed :
    ∀ l : List Char, (∀ c ∈ l, allowedFileChar c = true) → replaceDisallowed l = l
  | [], _ => rfl
  | c :: rest, h => by
    show (if allowedFileChar c then c else '_') :: replaceDisallowed rest = c :: rest
    rw [if_pos (h c (List.mem_cons_self c rest)),
      replaceDisallowed_of_allowed rest (fun c2 hc2 => h c2 (List.mem_cons_of_mem c hc2))]

theorem allowed_steps123 (l : List Char) :
    ∀ c ∈ steps123 l, allowedFileChar c = true := by
  intro c hc
  unfold steps123 dotGuard at hc
  by_cases hd : headIsDot (replaceDisallowed (removeDotDot l))
  · rw [if_pos hd] at hc
    rcases List.mem_append.mp hc with h | h
    · simp only [hiddenGuardChars, List.mem_cons, List.not_mem_nil, or_false] at h
      rcases h with rfl | rfl | rfl | rfl | rfl <;> decide
    · exact allowed_replaceDisallowed _ c h
  · rw [if_neg hd] at hc
    exact allowed_replaceDisallowed _ c hc

theorem headIsDot_dotGuard (l : List Char) : headIsDot (dotGuard l) = false := by
  unfold dotGuard
  by_cases hd : headIsDot l
  · rw [if_pos hd]; rfl
  · rw [if_neg hd]; simpa using hd

theorem steps123_fixpoint (l : List Char) (h1 : containsDotDot l = false)
    (h2 : ∀ c ∈ l, allowedFileChar c = true) (h3 : headIsDot l = false) :
    steps123 l = l := by
  unfold steps123
  rw [removeDotDot_of_no_dotdot l h1, replaceDisallowed_of_allowed l h2]
  unfold dotGuard
  rw [h3]
  simp

theorem truncateLong_of_short (l : List Char) (h : l.length ≤ 200) :
    truncateLong l = l := by
  unfold truncateLong
  rw [if_neg (by omega)]

/-! ## Lemmas classifying the `validateFile` messages -/

theorem any_if_singleton (c : Prop) [Decidable c] (m : String) (p : String → Bool) :
    (if c then [m] else []).any p = (decide c && p m) := by
  by_cases h : c <;> simp [h]

theorem isSizeError_tooLarge (renderMB : Nat → String) (n : Nat) :
    isSizeError (tooLargeMsg renderMB n) = true := by
  unfold isSizeError tooLargeMsg
  rw [strData_append, strData_append, List.append_assoc]
  rw [isPrefixOfAppend _ _ _ (by decide), Bool.true_or]

theorem isSizeError_tooSmall (n : Nat) : isSizeError (tooSmallMsg n) = true := by
  unfold isSizeError tooSmallMsg
  rw [strData_append, strData_append, List.append_assoc]
  rw [isPrefixOfAppend "❌ File is too small".data "❌ File is too small (".data _ (by decide),
    Bool.or_true]

theorem isSizeError_invalidType (ext : String) :
    isSizeError (invalidTypeMsg ext) = false := by
  unfold isSizeError invalidTypeMsg
  rw [strData_append, strData_append, List.append_assoc]
  rw [isPrefixOfFalseAppend _ _ _ (by decide) (by decide),
    isPrefixOfFalseAppend _ _ _ (by decide) (by decide)]
  rfl

theorem isSizeError_invalidChars : isSizeError invalidCharsMsg = false := by decide

theorem isSizeError_nameTooLong : isSizeError nameTooLongMsg = false := by decide

theorem isSizeError_malicious : isSizeError maliciousNameMsg = false := by decide

theorem isSizeError_multipleExt : isSizeError multipleExtensionsMsg = false := by decide

theorem isSizeError_hidden : isSizeError hiddenFileMsg = false := by decide

theorem isSizeError_mime : isSizeError mimeMismatchMsg = false := by decide

/-! ## Claim theorems -/

/-- C1: the year check of the source does not implement "sheet name contains a
4-digit substring in 1900–2099".  The sheet name `"Accidents_2024"` — one of
the valid examples printed in the error message of the validator itself — contains
the 4-digit year `2024`, yet `/\b(19|20)\d{2}\b/` fails on it (an `_` is a
word character, so there is no word boundary before `2024`), and the
validator emits the must-include-a-year error for a sheet of that name. -/
theorem c1_year_regex_rejects_valid_name :
    matchesYearRegex "Accidents_2024" = false ∧
    specHasYearSubstring "Accidents_2024".data = true ∧
    (validateExcelFile [("Accidents_2024", sampleRows)]).valid = false ∧
    (validateExcelFile [("Accidents_2024", sampleRows)]).errors
      = [yearMsg "Accidents_2024"] := by
  refine ⟨by decide, by decide, by decide, by decide⟩

/-- C8: a sheet whose header row has every required column except
`victimkilled` gets exactly one missing-severity-columns error naming
`victimkilled`, and a `"VictimKilled"` header removes it; but the
normalization-equivalent spellings with spaces or underscores that the
comment in the source itself says are allowed (e.g. `"Victim Killed"`, which
normalizes to `"victim_killed"`) do NOT remove the error, because the
matcher only compares against the underscore-free and as-written lowercase
forms of the column name. -/
theorem c8_victimkilled_spaced_header_not_matched :
    sheetColumnErrors "2023" headersNoVictimKilled
      = [severityColsMsg "2023" ["victimkilled"]] ∧
    sheetColumnErrors "2023" (headersNoVictimKilled ++ ["VictimKilled"]) = [] ∧
    sheetColumnErrors "2023" (headersNoVictimKilled ++ ["Victim Killed"])
      = [severityColsMsg "2023" ["victimkilled"]] ∧
    normalizeHeader "Victim Killed" = "victim_killed" := by
  refine ⟨by decide, by decide, by decide, by decide⟩

/-- C10: a workbook that opens but has zero sheets yields `valid = false`
with exactly the single no-sheets error, and that message is distinct from
every message of the unopenable-workbook catch branch. -/
theorem c10_zero_sheets_single_error :
    validateExcelFile [] = { valid := false, errors := [noSheetsMsg] } ∧
    noSheetsMsg ≠ corruptFileMsg ∧
    noSheetsMsg ≠ missingFileMsg ∧
    noSheetsMsg ≠ unreadableFileMsg := by
  refine ⟨rfl, by decide, by decide, by decide⟩

set_option maxRecDepth 8000 in
/-- C5 counterexample: `sanitizeFileName` is not idempotent.  On a
250-character name whose stem ends in a dot, truncation glues that dot to
the dot of the extension, producing `".."`; a second sanitization removes it,
giving a different (198-character) result. -/
theorem c5_sanitize_not_idempotent :
    sanitizeFileName (sanitizeFileName longDotName) ≠ sanitizeFileName longDotName := by
  decide

set_option maxRecDepth 8000 in
/-- C6 counterexample: an input containing `".."` whose sanitized output
still contains `".."` (again via the length-200 truncation step). -/
theorem c6_sanitized_output_contains_dotdot :
    containsDotDot longDotDotName.data = true ∧
    containsDotDot (sanitizeFileName longDotDotName).data = true := by
  refine ⟨by decide, by decide⟩

/-- C9 counterexample: the multer `filename` callback of the server keeps
`file.originalname` verbatim, so a client submitting the unsanitized name
`"foo bar.xlsx"` gets it stored as is — not as its sanitized form. -/
theorem c9_server_keeps_submitted_name :
    serverStoredName "foo bar.xlsx" ≠ sanitizeFileName "foo bar.xlsx" := by
  decide

/-- C5 (amended): `sanitizeFileName` is idempotent for every name on which
the length-200 truncation step does not fire, i.e. whenever the result of
steps 1–3 is at most 200 characters long.  (Truncation is exactly what the
counterexample exploits.) -/
theorem c5_sanitize_idempotent_without_truncation (s : String)
    (h : (steps123 s.data).length ≤ 200) :
    sanitizeFileName (sanitizeFileName s) = sanitizeFileName s := by
  have hns : truncateLong (steps123 s.data) = steps123 s.data :=
    truncateLong_of_short _ h
  have h1 : sanitizeFileName s = String.mk (steps123 s.data) := by
    unfold sanitizeFileName
    rw [hns]
  rw [h1]
  show String.mk (truncateLong (steps123 (steps123 s.data))) = String.mk (steps123 s.data)
  rw [steps123_fixpoint (steps123 s.data) (no_dotdot_steps123 _) (allowed_steps123 _)
      (headIsDot_dotGuard _),
    truncateLong_of_short _ h]

/-- C5 witness: the amended idempotence theorem applied to a concrete short
name (whose sanitization involves dot-removal and character replacement). -/
theorem c5_sanitize_idempotent_witness :
    sanitizeFileName (sanitizeFileName "my..crime file.xlsx")
      = sanitizeFileName "my..crime file.xlsx" :=
  c5_sanitize_idempotent_without_truncation "my..crime file.xlsx" (by decide)

/-- C6 (amended): for every name containing `".."`, as long as the
length-200 truncation step does not fire, the sanitized output contains no
`".."` substring. -/
theorem c6_no_dotdot_without_truncation (s : String)
    (_hdd : containsDotDot s.data = true) (h : (steps123 s.data).length ≤ 200) :
    containsDotDot (sanitizeFileName s).data = false := by
  unfold sanitizeFileName
  rw [truncateLong_of_short _ h]
  exact no_dotdot_steps123 _

/-- C6 witness: the amended theorem at the concrete name
`"my..file.xlsx"` (which contains `".."`). -/
theorem c6_no_dotdot_witness :
    containsDotDot (sanitizeFileName "my..file.xlsx").data = false :=
  c6_no_dotdot_without_truncation "my..file.xlsx" (by decide) (by decide)

/-- C3: in every pipeline state reachable from the initial idle state via
the orchestrator writes (run start, stage success, stage failure, final
completion), a set error field implies `isProcessing = false`. -/
theorem c3_error_implies_not_processing (st : PipelineState)
    (h : ReachablePipelineState st) (he : st.processingError ≠ none) :
    st.isProcessing = false := by
  unfold ReachablePipelineState at h
  induction h with
  | refl => exact absurd rfl he
  | tail hab hbc ih =>
    cases hbc with
    | runStart t => exact absurd rfl he
    | stageSuccess => exact ih he
    | stageFailure msg => rfl
    | finalComplete => rfl

/-- C3 witness: the invariant theorem applied to the concrete reachable
error state produced by a run start followed by a stage failure. -/
theorem c3_error_state_witness : errorWitnessState.isProcessing = false :=
  c3_error_implies_not_processing errorWitnessState
    (Relation.ReflTransGen.tail
      (Relation.ReflTransGen.tail Relation.ReflTransGen.refl (PipelineStep.runStart _ 0))
      (PipelineStep.stageFailure _ "boom"))
    (by decide)

/-- C4 counterexample: the success response of the upload route carries no
`accepted` key at all (its body is `{message, filename}`), so the claimed
success shape `{accepted: true, filename}` does not match the code.  Shown
on a concrete accepted upload. -/
theorem c4_success_response_has_no_accepted_field :
    uploadHandler (some ("cleandata_2023.xlsx", sampleWorkbook)) =
      [UploadEvent.respond 200 (successBody "cleandata_2023.xlsx"),
       UploadEvent.startPipeline] ∧
    (successBody "cleandata_2023.xlsx").lookup "accepted" = none ∧
    ("accepted", JsonVal.boolVal true) ∉ successBody "cleandata_2023.xlsx" := by
  refine ⟨by decide, by decide, by decide⟩

/-- C4 (amended): for every accepted upload, the success response is the
200 body `{message: "File validated successfully. Processing started...",
filename}` (with no `accepted` field), and the pipeline is triggered only
after the response is sent (the respond event precedes `startPipeline` in
the action sequence of the handler). -/
theorem c4_success_response_then_pipeline (filename : String)
    (wb : List (String × List (List String)))
    (h : (validateExcelFile wb).valid = true) :
    uploadHandler (some (filename, wb)) =
      [UploadEvent.respond 200 (successBody filename), UploadEvent.startPipeline] ∧
    (successBody filename).lookup "filename" = some (JsonVal.str filename) ∧
    (successBody filename).lookup "message"
      = some (JsonVal.str "File validated successfully. Processing started...") ∧
    (successBody filename).lookup "accepted" = none := by
  refine ⟨?_, ?_, rfl, rfl⟩
  · simp [uploadHandler, h]
  · simp [successBody, List.lookup]

/-- C4 witness: the amended theorem at a concrete valid workbook. -/
theorem c4_success_response_witness :
    uploadHandler (some ("crime_2023.xlsx", sampleWorkbook)) =
      [UploadEvent.respond 200 (successBody "crime_2023.xlsx"),
       UploadEvent.startPipeline] ∧
    (successBody "crime_2023.xlsx").lookup "filename"
      = some (JsonVal.str "crime_2023.xlsx") ∧
    (successBody "crime_2023.xlsx").lookup "message"
      = some (JsonVal.str "File validated successfully. Processing started...") ∧
    (successBody "crime_2023.xlsx").lookup "accepted" = none :=
  c4_success_response_then_pipeline "crime_2023.xlsx" sampleWorkbook (by decide)

/-- C9 (amended): the server stores an accepted upload under exactly the
name submitted in the request (multer keeps `file.originalname`); the
frontend `onDrop` handler submits the sanitized name whenever its validation
passes, so uploads made through the frontend are stored under
`sanitizeFileName` of the original name — but the server itself applies no
sanitization to whatever name a client supplies. -/
theorem c9_sanitization_happens_client_side (renderMB : Nat → String)
    (f : FileDesc) (h : validateFile renderMB f = []) :
    onDropAccepted renderMB f = UploadDecision.send f.name (sanitizeFileName f.name) ∧
    serverStoredName (sanitizeFileName f.name) = sanitizeFileName f.name ∧
    (∀ submitted : String, serverStoredName submitted = submitted) := by
  refine ⟨?_, rfl, fun _ => rfl⟩
  simp [onDropAccepted, h]

/-- C9 witness: the amended theorem at a concrete file that passes client
validation. -/
theorem c9_sanitization_witness :
    onDropAccepted (fun _ => "")
        { name := "report.xlsx", size := 2048, mimeType := "application/vnd.ms-excel" }
      = UploadDecision.send "report.xlsx" (sanitizeFileName "report.xlsx") ∧
    serverStoredName (sanitizeFileName "report.xlsx") = sanitizeFileName "report.xlsx" ∧
    (∀ submitted : String, serverStoredName submitted = submitted) :=
  c9_sanitization_happens_client_side (fun _ => "")
    { name := "report.xlsx", size := 2048, mimeType := "application/vnd.ms-excel" }
    (by decide)

/-- C7: the client validator reports a size error exactly when the byte
size of the file lies outside the inclusive range `[1024, 50 * 1024 * 1024]`, and a
non-empty error list makes `onDrop` abort the upload, so the file is never
sent to the server. -/
theorem c7_size_check_iff_and_abort (renderMB : Nat → String) (f : FileDesc) :
    ((validateFile renderMB f).any isSizeError = true ↔
      ¬(MIN_FILE_SIZE ≤ f.size ∧ f.size ≤ MAX_FILE_SIZE)) ∧
    (validateFile renderMB f ≠ [] →
      onDropAccepted renderMB f = UploadDecision.abort (validateFile renderMB f)) := by
  constructor
  · unfold validateFile
    simp only [List.any_append, any_if_singleton, isSizeError_tooLarge, isSizeError_tooSmall,
      isSizeError_invalidChars, isSizeError_nameTooLong, isSizeError_malicious,
      isSizeError_invalidType, isSizeError_multipleExt, isSizeError_hidden, isSizeError_mime,
      Bool.and_true, Bool.and_false, Bool.or_false, Bool.or_eq_true, decide_eq_true_eq]
    unfold MIN_FILE_SIZE MAX_FILE_SIZE
    omega
  · intro h
    simp [onDropAccepted, h]

/-- C7 witness: a 100-byte file is below the minimum size; the theorem
yields both the size error and the aborted upload for it. -/
theorem c7_size_check_witness :
    (validateFile (fun _ => "")
        { name := "report.xlsx", size := 100, mimeType := "application/vnd.ms-excel" }).any
      isSizeError = true ∧
    onDropAccepted (fun _ => "")
        { name := "report.xlsx", size := 100, mimeType := "application/vnd.ms-excel" }
      = UploadDecision.abort
          (validateFile (fun _ => "")
            { name := "report.xlsx", size := 100, mimeType := "application/vnd.ms-excel" }) :=
  ⟨(c7_size_check_iff_and_abort (fun _ => "")
      { name := "report.xlsx", size := 100, mimeType := "application/vnd.ms-excel" }).1.mpr
      (by decide),
   (c7_size_check_iff_and_abort (fun _ => "")
      { name := "report.xlsx", size := 100, mimeType := "application/vnd.ms-excel" }).2
      (by decide)⟩

/-- C2: whenever one of the first four scripts fails (nonzero exit code or a
spawn failure), the next script is never invoked, `isProcessing` becomes
false, the error field records the message of the source naming the failed script
and the failure reason, and a later `/status` query reports
`status = "error"` with that message.  Stage `k` is 0-indexed here
(stage `k` of the claim, with `1 ≤ k < N`, is index `k - 1`). -/
theorem c2_stage_failure_stops_pipeline (k : Nat) (hk : k + 1 < pythonScripts.length)
    (bad : StageOutcome) (hbad : bad ≠ Except.ok 0) (rest : List StageOutcome)
    (startTime now : Nat) :
    pythonScripts.get ⟨k + 1, hk⟩ ∉
      invokedScripts pythonScripts (List.replicate k (Except.ok 0) ++ bad :: rest) ∧
    (runPythonScripts startTime (List.replicate k (Except.ok 0) ++ bad :: rest)).isProcessing
      = false ∧
    (runPythonScripts startTime (List.replicate k (Except.ok 0) ++ bad :: rest)).processingError
      = some (failMsgFor (pythonScripts.get ⟨k, Nat.lt_of_succ_lt hk⟩) bad) ∧
    (statusResponse now (runPythonScripts startTime
        (List.replicate k (Except.ok 0) ++ bad :: rest))).status = "error" ∧
    (statusResponse now (runPythonScripts startTime
        (List.replicate k (Except.ok 0) ++ bad :: rest))).processingError
      = some (failMsgFor (pythonScripts.get ⟨k, Nat.lt_of_succ_lt hk⟩) bad) := by
  have hk4 : k < 4 := by
    have hk5 : k + 1 < 5 := hk
    omega
  interval_cases k
  · rw [show pythonScripts.get ⟨0 + 1, hk⟩ = "cleanup_files.py" from rfl,
      show pythonScripts.get ⟨0, Nat.lt_of_succ_lt hk⟩ = "cleaning2.py" from rfl]
    rcases bad with emsg | code
    · simp [pythonScripts, invokedScripts, runPythonScripts, runScriptsChain,
        runSingleScriptStep, statusResponse, statusOf, failMsgFor, List.replicate]
    · have hc : code ≠ 0 := fun e => hbad (by rw [e])
      simp [pythonScripts, invokedScripts, runPythonScripts, runScriptsChain,
        runSingleScriptStep, statusResponse, statusOf, failMsgFor, List.replicate, hc]
  · rw [show pythonScripts.get ⟨1 + 1, hk⟩ = "export_geojson.py" from rfl,
      show pythonScripts.get ⟨1, Nat.lt_of_succ_lt hk⟩ = "cleanup_files.py" from rfl]
    rcases bad with emsg | code
    · simp [pythonScripts, invokedScripts, runPythonScripts, runScriptsChain,
        runSingleScriptStep, statusResponse, statusOf, failMsgFor, List.replicate]
    · have hc : code ≠ 0 := fun e => hbad (by rw [e])
      simp [pythonScripts, invokedScripts, runPythonScripts, runScriptsChain,
        runSingleScriptStep, statusResponse, statusOf, failMsgFor, List.replicate, hc]
  · rw [show pythonScripts.get ⟨2 + 1, hk⟩ = "cluster_hdbscan.py" from rfl,
      show pythonScripts.get ⟨2, Nat.lt_of_succ_lt hk⟩ = "export_geojson.py" from rfl]
    rcases bad with emsg | code
    · simp [pythonScripts, invokedScripts, runPythonScripts, runScriptsChain,
        runSingleScriptStep, statusResponse, statusOf, failMsgFor, List.replicate]
    · have hc : code ≠ 0 := fun e => hbad (by rw [e])
      simp [pythonScripts, invokedScripts, runPythonScripts, runScriptsChain,
        runSingleScriptStep, statusResponse, statusOf, failMsgFor, List.replicate, hc]
  · rw [show pythonScripts.get ⟨3 + 1, hk⟩ = "mobile_cluster_fetch.py" from rfl,
      show pythonScripts.get ⟨3, Nat.lt_of_succ_lt hk⟩ = "cluster_hdbscan.py" from rfl]
    rcases bad with emsg | code
    · simp [pythonScripts, invokedScripts, runPythonScripts, runScriptsChain,
        runSingleScriptStep, statusResponse, statusOf, failMsgFor, List.replicate]
    · have hc : code ≠ 0 := fun e => hbad (by rw [e])
      simp [pythonScripts, invokedScripts, runPythonScripts, runScriptsChain,
        runSingleScriptStep, statusResponse, statusOf, failMsgFor, List.replicate, hc]

/-- C2 witness: the second script (`cleanup_files.py`, 0-indexed stage 1)
exits with code 2; the third script is never invoked and `/status` reports
the error. -/
theorem c2_stage_failure_witness :
    "export_geojson.py" ∉ invokedScripts pythonScripts [Except.ok 0, Except.ok 2] ∧
    (runPythonScripts 0 [Except.ok 0, Except.ok 2]).isProcessing = false ∧
    (runPythonScripts 0 [Except.ok 0, Except.ok 2]).processingError
      = some (failMsgFor "cleanup_files.py" (Except.ok 2)) ∧
    (statusResponse 5000 (runPythonScripts 0 [Except.ok 0, Except.ok 2])).status = "error" ∧
    (statusResponse 5000 (runPythonScripts 0 [Except.ok 0, Except.ok 2])).processingError
      = some (failMsgFor "cleanup_files.py" (Except.ok 2)) :=
  c2_stage_failure_stops_pipeline 1 (by decide) (Except.ok 2) (by simp) [] 0 5000

end Osimap
